import Mathlib

/-!
Shallow embedding of the control core of the `lequan81/iot_feeder` firmware
(an ESP8266 pet feeder), covering:

* the sample filters `getStableWeight` (src/src/helpers/scale_helpers.h) and
  `getDistance` (src/src/helpers/water_helpers.h),
* the cooperative wait primitive `nonBlockingWait` (src/src/main.cpp),
* the water-refill state machine `checkWaterLevel`
  (src/src/helpers/water_helpers.h; the spec treats the header version as
  canonical over the superseded inline copy in main.cpp),
* the feeding dispense controller `dispenseFoodWithFeedback`
  (src/src/helpers/feeding_helpers.h).

Modelling conventions: C `float` arithmetic is modelled over `ℚ` (all the
constants involved are exact and no claim hinges on rounding); `millis()`
timestamps are `Nat` with `uint32` subtraction modelled as truncated `Nat`
subtraction (wraparound after 49.7 days is not modelled); hardware reads
(`scale.is_ready`, `scale.get_units`, `sonar.ping`) are inputs supplied by an
environment, indexed by occurrence; LCD/serial/network output is pure effect
and is either dropped or recorded as an event trace where a claim mentions it.
-/

namespace IotFeeder

/-! ## Configuration constants (src/src/config.h) -/

def LCD_TIMEOUT : Nat := 3000

def LCD_UPDATE_INTERVAL : Nat := 500

def WATER_CRITICAL_HEIGHT : ℚ := 2

def DISTANCE_WATER_EMPTY : ℚ := 19

def DISTANCE_WATER_FULL : ℚ := 16

def REFILL_DURATION : Nat := 10000

def COOLDOWN_PERIOD : Nat := 300000

/-- Display refresh period used by the water machine's COOLDOWN branch
(`DISPLAY_UPDATE_INTERVAL` in main.cpp, 1000 ms); display-only. -/
def DISPLAY_UPDATE_INTERVAL : Nat := 1000

def SERVO_OPEN_ANGLE : Nat := 60

def SERVO_CLOSE_ANGLE : Nat := 180

def FEED_WEIGHT : ℚ := 65

def FEED_TIMEOUT : Nat := 30000

def FEED_RETRY_TIMEOUT : Nat := 2

/-- `FEED_CALIBRATION_FACTOR` (0.9f): pre-close threshold fraction. -/
def FEED_CALIBRATION_FACTOR : ℚ := 9 / 10

/-- `FEED_COMPLETE_FACTOR` (0.95f): completion threshold fraction. -/
def FEED_COMPLETE_FACTOR : ℚ := 95 / 100

def WEIGHT_READ_INTERVAL : Nat := 100

def PING_SAMPLES : Nat := 5

/-- Arduino's `constrain(x, lo, hi)` macro:
`(amt < low) ? low : ((amt > high) ? high : amt)`. -/
def constrain (x lo hi : ℚ) : ℚ :=
  if x < lo then lo else if x > hi then hi else x

/-- Clamp-to-nonnegative idiom `if (w < 0) w = 0;` used throughout the
feeding code. -/
def clampNonneg (x : ℚ) : ℚ := if x < 0 then 0 else x

/-! ## Sample filters -/

/-- Readings recorded by `getStableWeight` (scale_helpers.h:32-44): the
function takes `min numReadings 10` readings; at read `i` the driver either
yields a weight (`reads i = some w`, scale ready) or fails
(`reads i = none`), in which case the slot is recorded as `0`
("Mark failed reading"). -/
def recordedWeights (numReadings : Nat) (reads : Nat → Option ℚ) : List ℚ :=
  (List.range (min numReadings 10)).map (fun i => (reads i).getD 0)

/-- The `validReadings` counter of `getStableWeight` (scale_helpers.h:50-60):
readings equal to `0` are skipped ("Skip failed readings"). -/
def stableValidCount (numReadings : Nat) (reads : Nat → Option ℚ) : Nat :=
  ((recordedWeights numReadings reads).filter (fun w => decide (w ≠ 0))).length

/-- Embedding of `getStableWeight` (scale_helpers.h:30-85): average of the
nonzero recorded readings; if all readings are zero ("If all readings
failed") it returns `0`.  The min/max stability diagnostics are debug output
only and do not affect the result. -/
def getStableWeight (numReadings : Nat) (reads : Nat → Option ℚ) : ℚ :=
  let valid := (recordedWeights numReadings reads).filter (fun w => decide (w ≠ 0))
  if valid.length = 0 then 0
  else valid.sum / (valid.length : ℚ)

/-- Embedding of `getDistance` (water_helpers.h:95-121).  The external
NewPing driver is modelled at its interface: ping `i` either yields no echo
(`pings i = none`, `sonar.ping() = 0`) or a converted centimetre value
`pings i = some d` (`sonar.convert_cm` of a positive duration).  Valid
readings are accumulated in a `uint32` and averaged with integer division;
zero valid readings yield `0`. -/
def getDistance (pings : Nat → Option Nat) : ℚ :=
  let valid := ((List.range PING_SAMPLES).map pings).filterMap id
  if valid.length = 0 then 0
  else ((valid.sum / valid.length : Nat) : ℚ)

/-! ## Non-blocking wait (main.cpp:1407-1433) -/

/-- Total time `nonBlockingWait(waitTime, startDisplayTime)` busy-waits
before returning, as a function of the current `millis()` value `now`
(main.cpp:1407-1433).  When `LCD_TIMEOUT > 0 && startDisplayTime > 0`: if at
least `LCD_TIMEOUT` has already elapsed since `startDisplayTime` the function
returns immediately ("don't wait more"); otherwise it waits
`max(waitTime, LCD_TIMEOUT - elapsedDisplayTime)`. -/
def nonBlockingWaitDuration (waitTime startDisplayTime now : Nat) : Nat :=
  if 0 < LCD_TIMEOUT ∧ 0 < startDisplayTime then
    let elapsedDisplayTime := now - startDisplayTime
    if LCD_TIMEOUT ≤ elapsedDisplayTime then 0
    else max waitTime (LCD_TIMEOUT - elapsedDisplayTime)
  else waitTime

/-! ## Water refill state machine (water_helpers.h:126-340) -/

/-- The `WaterState` enum of `checkWaterLevel`. -/
inductive WaterState
  | CHECK_WATER
  | REFILL_RUNNING
  | COOLDOWN
deriving DecidableEq, Repr

/-- Persistent state of `checkWaterLevel`: the `static` locals plus the
`WATER_PUMP_RELAY_PIN` output latch (initialised LOW in `setupPins`). -/
structure WaterSM where
  state : WaterState
  stateStartTime : Nat
  lastDisplayUpdate : Nat
  pumpRelay : Bool
deriving DecidableEq, Repr

/-- One invocation of `checkWaterLevel` (water_helpers.h:126-340), given the
current `millis()` value and the filtered distance (`getDistance()` result).

* `CHECK_WATER`: out-of-range distance (≤ 0 or > 400) shows a sensor error
  and returns with nothing mutated.  Otherwise the clamped water height is
  compared with `WATER_CRITICAL_HEIGHT`; on low water the machine moves to
  `REFILL_RUNNING`, recording the entry time.  The relay activation
  (`digitalWrite(WATER_PUMP_RELAY_PIN, HIGH)`) at water_helpers.h:217 is
  commented out in the source, so `pumpRelay` is not touched here.
* `REFILL_RUNNING`: display refresh at 200 ms cadence; once
  `REFILL_DURATION` has elapsed the relay is driven LOW and the machine
  moves to `COOLDOWN`.
* `COOLDOWN`: display refresh; once `COOLDOWN_PERIOD` has elapsed the
  machine returns to `CHECK_WATER` (the distance input is never read in this
  state). -/
def checkWaterLevel (s : WaterSM) (currentMillis : Nat) (distanceCm : ℚ) :
    WaterSM :=
  match s.state with
  | .CHECK_WATER =>
      if distanceCm ≤ 0 ∨ distanceCm > 400 then s
      else
        let waterHeight := constrain (DISTANCE_WATER_EMPTY - distanceCm) 0
          (DISTANCE_WATER_EMPTY - DISTANCE_WATER_FULL)
        if waterHeight ≤ WATER_CRITICAL_HEIGHT then
          { s with state := .REFILL_RUNNING, stateStartTime := currentMillis,
                   lastDisplayUpdate := currentMillis }
        else s
  | .REFILL_RUNNING =>
      let s1 :=
        if 200 ≤ currentMillis - s.lastDisplayUpdate then
          { s with lastDisplayUpdate := currentMillis }
        else s
      if REFILL_DURATION ≤ currentMillis - s.stateStartTime then
        { s1 with pumpRelay := false, state := .COOLDOWN,
                  stateStartTime := currentMillis,
                  lastDisplayUpdate := currentMillis }
      else s1
  | .COOLDOWN =>
      let s1 :=
        if DISPLAY_UPDATE_INTERVAL ≤ currentMillis - s.lastDisplayUpdate then
          { s with lastDisplayUpdate := currentMillis }
        else s
      if COOLDOWN_PERIOD ≤ currentMillis - s.stateStartTime then
        { s1 with state := .CHECK_WATER }
      else s1

/-! ## Feeding dispense controller (feeding_helpers.h:210-391) -/

/-- Events recorded while `dispenseFoodWithFeedback` runs.  `servoWrite a`
is a `hatchServo.write(a)` command; the remaining constructors tag which
terminal/branch message was displayed:

* `scaleAbort` — "Scale error! / Closing hatch" early-return path (:254-258),
* `retryDispense` — "Need more food / Retry #n" reopen (:308-319),
* `completeTarget` — "Target reached!" settled completion (:322-332),
* `retriesExhausted` — "Warning: Only …g dispensed" underfeed exit (:335-345),
* `directReachClose` — the direct-reach branch at :351-361 was entered,
* `directReachConfirmed` — its stability-confirmed completion (:358-359),
* `excessStop` — "Warning! / Excess food!" emergency stop (:364-372). -/
inductive FeedEvent
  | servoWrite (angle : Nat)
  | scaleAbort
  | retryDispense
  | completeTarget
  | retriesExhausted
  | directReachClose
  | directReachConfirmed
  | excessStop
deriving DecidableEq, Repr

/-- Hardware environment of one `dispenseFoodWithFeedback` run.  `scaleOk n`
is whether the scale is (or recovers to be) ready at the n-th weight poll
(feeding_helpers.h:242-252, the 5-attempt recovery loop collapsed into one
boolean); `poll n` is `scale.get_units(1)` at the n-th successful poll;
`settleReads k i` is the i-th of the 5 readings `measureSettledWeight(5, 2)`
takes at the k-th settle pause (`none` when `scale.is_ready()` is false
there). -/
structure FeedEnv where
  scaleOk : Nat → Bool
  poll : Nat → ℚ
  settleReads : Nat → Nat → Option ℚ

/-- Embedding of `measureSettledWeight` (feeding_helpers.h:92-111): average
of the readings taken while the scale is ready; `0` when no reading
succeeded. -/
def measureSettledWeight (reads : Nat → Option ℚ) (numReadings : Nat) : ℚ :=
  let valid := ((List.range numReadings).map reads).filterMap id
  if 0 < valid.length then valid.sum / (valid.length : ℚ) else 0

/-- Local state of the `dispenseFoodWithFeedback` main loop.  `pollCount`
and `settleCount` are embedding bookkeeping indexing into the environment
streams; `trace` records servo commands and branch messages in program
order. -/
structure FeedState where
  weightReadings : List ℚ
  readingIndex : Nat
  currentWeight : ℚ
  lastDisplayUpdate : Nat
  lastWeightRead : Nat
  targetReached : Bool
  preCloseExecuted : Bool
  dispensedWeight : ℚ
  retryCount : Nat
  stabilityCounter : Nat
  pollCount : Nat
  settleCount : Nat
  trace : List FeedEvent
deriving DecidableEq, Repr

/-- Append an event to the run trace. -/
def emit (s : FeedState) (e : FeedEvent) : FeedState :=
  { s with trace := s.trace ++ [e] }

/-- State at loop entry (feeding_helpers.h:211-231): moving-average window
seeded with `initialWeight`, counters zeroed, hatch opened
(`hatchServo.write(SERVO_OPEN_ANGLE)`). -/
def initFeedState (initialWeight : ℚ) : FeedState :=
  { weightReadings := [initialWeight, initialWeight, initialWeight]
    readingIndex := 0
    currentWeight := initialWeight
    lastDisplayUpdate := 0
    lastWeightRead := 0
    targetReached := false
    preCloseExecuted := false
    dispensedWeight := 0
    retryCount := 0
    stabilityCounter := 0
    pollCount := 0
    settleCount := 0
    trace := [.servoWrite SERVO_OPEN_ANGLE] }

/-- The pre-close block (feeding_helpers.h:277-347), entered when
`!preCloseExecuted && dispensedWeight >= targetAmount * FEED_CALIBRATION_FACTOR`:
close the hatch, settle, re-measure via `measureSettledWeight(5, 2)`,
overwrite the moving-average window with the settled value, then branch into
retry / settled-complete / retries-exhausted. -/
def settleBlock (initialWeight targetAmount : ℚ) (env : FeedEnv)
    (s : FeedState) : FeedState :=
  let s := emit s (.servoWrite SERVO_CLOSE_ANGLE)
  let s := { s with preCloseExecuted := true }
  let settledWeight := measureSettledWeight (env.settleReads s.settleCount) 5
  let s := { s with settleCount := s.settleCount + 1 }
  let d := clampNonneg (settledWeight - initialWeight)
  let s := { s with dispensedWeight := d, currentWeight := settledWeight,
                    weightReadings := [settledWeight, settledWeight, settledWeight] }
  if d < targetAmount * FEED_COMPLETE_FACTOR ∧ s.retryCount < FEED_RETRY_TIMEOUT then
    let s := { s with retryCount := s.retryCount + 1 }
    let s := emit s .retryDispense
    let s := emit s (.servoWrite SERVO_OPEN_ANGLE)
    { s with preCloseExecuted := false }
  else if targetAmount * FEED_COMPLETE_FACTOR ≤ d then
    emit { s with targetReached := true } .completeTarget
  else if FEED_RETRY_TIMEOUT ≤ s.retryCount then
    emit { s with targetReached := true } .retriesExhausted
  else s

/-- The `if (!preCloseExecuted)` block (feeding_helpers.h:350-374): the
direct-reach target check with its stability counter, followed by the 125 %
emergency-stop check. -/
def directAndExcessBlock (targetAmount : ℚ) (s : FeedState) : FeedState :=
  if s.preCloseExecuted = false then
    let s :=
      if targetAmount ≤ s.dispensedWeight then
        let s := emit s (.servoWrite SERVO_CLOSE_ANGLE)
        let s := emit { s with preCloseExecuted := true } .directReachClose
        if s.stabilityCounter < 2 then
          { s with stabilityCounter := s.stabilityCounter + 1 }
        else emit { s with targetReached := true } .directReachConfirmed
      else s
    if targetAmount * (5 / 4) ≤ s.dispensedWeight then
      let s := emit s (.servoWrite SERVO_CLOSE_ANGLE)
      emit { s with targetReached := true } .excessStop
    else s
  else s

/-- The weight-poll body (feeding_helpers.h:262-374), reached when the scale
is (recovered to be) ready: update the 3-slot moving average with
`scale.get_units(1)`, recompute the clamped dispensed weight, then run the
pre-close block and the direct-reach / emergency-stop block. -/
def pollBlock (initialWeight targetAmount : ℚ) (env : FeedEnv)
    (s : FeedState) : FeedState :=
  let reading := env.poll s.pollCount
  let s := { s with pollCount := s.pollCount + 1,
                    weightReadings := s.weightReadings.set s.readingIndex reading,
                    readingIndex := (s.readingIndex + 1) % 3 }
  let currentWeight := s.weightReadings.sum / 3
  let d := clampNonneg (currentWeight - initialWeight)
  let s := { s with currentWeight := currentWeight, dispensedWeight := d }
  if s.preCloseExecuted = false ∧ targetAmount * FEED_CALIBRATION_FACTOR ≤ d then
    directAndExcessBlock targetAmount (settleBlock initialWeight targetAmount env s)
  else
    directAndExcessBlock targetAmount s

/-- The periodic display refresh (feeding_helpers.h:378-381); no control
effect. -/
def updateDisplayTick (now : Nat) (s : FeedState) : FeedState :=
  if LCD_UPDATE_INTERVAL ≤ now - s.lastDisplayUpdate then
    { s with lastDisplayUpdate := now }
  else s

/-- One iteration of the main feeding loop body (feeding_helpers.h:235-384)
at `now = millis()`.  The second component is `true` exactly on the
mid-dispense scale-failure abort (:254-258), which displays "Scale error!",
closes the hatch and returns early. -/
def feedIter (initialWeight targetAmount : ℚ) (env : FeedEnv) (now : Nat)
    (s : FeedState) : FeedState × Bool :=
  if WEIGHT_READ_INTERVAL ≤ now - s.lastWeightRead then
    let s := { s with lastWeightRead := now }
    if env.scaleOk s.pollCount = false then
      (emit (emit s .scaleAbort) (.servoWrite SERVO_CLOSE_ANGLE), true)
    else
      (updateDisplayTick now (pollBlock initialWeight targetAmount env s), false)
  else
    (updateDisplayTick now s, false)

/-- Result of a `dispenseFoodWithFeedback` run: the returned
`dispensedWeight`, the event trace, the final retry counter, whether the run
returned via the scale-failure abort, and whether the loop exited with
`targetReached` still false (i.e. by the `FEED_TIMEOUT` guard). -/
structure FeedResult where
  dispensedWeight : ℚ
  trace : List FeedEvent
  retryCount : Nat
  aborted : Bool
  timedOut : Bool
deriving DecidableEq, Repr

/-- The `while (!targetReached && (millis() - startTime < FEED_TIMEOUT))`
loop (feeding_helpers.h:234-385) followed by the final
`hatchServo.write(SERVO_CLOSE_ANGLE)` (:388).  `times i` is the `millis()`
value at the top of iteration `i`; `fuel` bounds the number of modelled
iterations (`none` = fuel exhausted, never reached in the theorems below). -/
def dispenseLoop (initialWeight targetAmount : ℚ) (env : FeedEnv)
    (times : Nat → Nat) (startTime : Nat) :
    Nat → Nat → FeedState → Option FeedResult
  | 0, _, _ => none
  | fuel + 1, i, s =>
      if s.targetReached = false ∧ times i - startTime < FEED_TIMEOUT then
        let r := feedIter initialWeight targetAmount env (times i) s
        if r.2 then
          some ⟨r.1.dispensedWeight, r.1.trace, r.1.retryCount, true, false⟩
        else
          dispenseLoop initialWeight targetAmount env times startTime fuel
            (i + 1) r.1
      else
        let s1 := emit s (.servoWrite SERVO_CLOSE_ANGLE)
        some ⟨s1.dispensedWeight, s1.trace, s1.retryCount, false, !s.targetReached⟩

/-- Embedding of `dispenseFoodWithFeedback(initialWeight, targetAmount)`
(feeding_helpers.h:210-391).  `feeding()` issues hatch commands only through
this function, so its hatch behaviour is inherited by `feeding`. -/
def dispenseFoodWithFeedback (initialWeight targetAmount : ℚ) (env : FeedEnv)
    (times : Nat → Nat) (startTime : Nat) (fuel : Nat) : Option FeedResult :=
  dispenseLoop initialWeight targetAmount env times startTime fuel 0
    (initFeedState initialWeight)

/-- The hatch-servo angles written during a run, in order. -/
def servoWrites (t : List FeedEvent) : List Nat :=
  t.filterMap (fun e => match e with | .servoWrite a => some a | _ => none)

/-- The last hatch-servo command of a run. -/
def lastServoAngle (t : List FeedEvent) : Option Nat :=
  (servoWrites t).getLast?

/-! ## Concrete runs used as witnesses / counterexamples -/

/-- Environment whose weight polls jump directly from the baseline past
`target × 1.25` (readings of 300 g against a 65 g target); the settled
measurement confirms 300 g. -/
def envJump : FeedEnv := ⟨fun _ => true, fun _ => 300, fun _ _ => some 300⟩

/-- Environment whose weight polls read 70 g against a 65 g target:
`dispensedWeight` reaches the target directly without first being seen in
`[0.9 × target, target)`. -/
def envSeventy : FeedEnv := ⟨fun _ => true, fun _ => 70, fun _ _ => some 70⟩

/-- Environment whose scale never becomes ready: the first weight poll takes
the mid-dispense scale-failure abort. -/
def envDeadScale : FeedEnv := ⟨fun _ => false, fun _ => 0, fun _ _ => none⟩

/-- Environment whose scale reads 0 g forever (no food ever lands). -/
def envNoFlow : FeedEnv := ⟨fun _ => true, fun _ => 0, fun _ _ => none⟩

/-- Result of the `envJump` run: the 0.9 pre-close branch handles the jump
and reports normal completion; no excess event. -/
def feedResJump : FeedResult :=
  ⟨300, [.servoWrite SERVO_OPEN_ANGLE, .servoWrite SERVO_CLOSE_ANGLE,
         .completeTarget, .servoWrite SERVO_CLOSE_ANGLE], 0, false, false⟩

/-- Result of the `envSeventy` run: completion happens through the pre-close
settle path; the direct-reach branch never runs. -/
def feedResSeventy : FeedResult :=
  ⟨70, [.servoWrite SERVO_OPEN_ANGLE, .servoWrite SERVO_CLOSE_ANGLE,
        .completeTarget, .servoWrite SERVO_CLOSE_ANGLE], 0, false, false⟩

/-- Result of the `envDeadScale` run: scale-failure abort, hatch closed
last. -/
def feedResDeadScale : FeedResult :=
  ⟨0, [.servoWrite SERVO_OPEN_ANGLE, .scaleAbort, .servoWrite SERVO_CLOSE_ANGLE],
   0, true, false⟩

/-- A water-machine state sitting in `CHECK_WATER` with the relay off, as
after `setupPins` (main.cpp:276-281). -/
def waterIdle : WaterSM := ⟨.CHECK_WATER, 0, 0, false⟩

/-- Recognises the retry-reopen event (each increments `retryCount`). -/
def isRetryEvt : FeedEvent → Bool
  | .retryDispense => true
  | _ => false

/-- Number of retry-reopen cycles recorded in a trace. -/
def countRetry (t : List FeedEvent) : Nat := t.countP isRetryEvt

/-- Recognises events that only the direct-reach branch
(feeding_helpers.h:351-361) or the emergency-stop branch (:364-372) can
emit. -/
def isDeadBranchEvt : FeedEvent → Bool
  | .directReachClose => true
  | .directReachConfirmed => true
  | .excessStop => true
  | _ => false

/-- Number of direct-reach / emergency-stop events in a trace. -/
def countDead (t : List FeedEvent) : Nat := t.countP isDeadBranchEvt

/-! ## Theorems -/

/-- Claim C9: in the CHECKING state, an out-of-range filtered distance
(≤ 0 or above the 400 cm ceiling) makes `checkWaterLevel` report a sensor
error and return with no state transition: state, `stateStartTime`,
`lastDisplayUpdate` and the pump-relay output are all unchanged
(water_helpers.h:151-159 returns before any mutation). -/
theorem C9_out_of_range_no_state_change :
    ∀ (s : WaterSM) (t : Nat) (d : ℚ), s.state = .CHECK_WATER →
      (d ≤ 0 ∨ d > 400) → checkWaterLevel s t d = s := by
  intro s t d hs hd
  simp only [checkWaterLevel, hs]
  rw [if_pos hd]

/-- Witness for C9 at a concrete out-of-range distance (500 cm). -/
theorem C9_witness :
    checkWaterLevel ⟨.CHECK_WATER, 7, 3, true⟩ 99 500 = ⟨.CHECK_WATER, 7, 3, true⟩ :=
  C9_out_of_range_no_state_change ⟨.CHECK_WATER, 7, 3, true⟩ 99 500 rfl
    (Or.inr (by norm_num))

/-- Claim C7 (code divergence): with `emptyDistance = 19`, `fullDistance =
16`, `criticalHeight = 2` and measured distance 17.5 cm, the clamped water
height is 1.5 cm ≤ 2 cm and `checkWaterLevel` transitions to
`REFILL_RUNNING` recording the entry time — but the pump relay is NOT
driven on: the `digitalWrite(WATER_PUMP_RELAY_PIN, HIGH)` at
water_helpers.h:217 is commented out, so the relay output stays exactly as
it was (off). -/
theorem C7_refill_transition_relay_untouched :
    checkWaterLevel waterIdle 1000 (35 / 2) =
      { state := .REFILL_RUNNING, stateStartTime := 1000,
        lastDisplayUpdate := 1000, pumpRelay := false }
    ∧ constrain (DISTANCE_WATER_EMPTY - 35 / 2) 0
        (DISTANCE_WATER_EMPTY - DISTANCE_WATER_FULL) = 3 / 2 := by
  constructor
  · simp only [checkWaterLevel, waterIdle]
    rw [if_neg (by norm_num), if_pos (by norm_num [constrain, DISTANCE_WATER_EMPTY,
      DISTANCE_WATER_FULL, WATER_CRITICAL_HEIGHT])]
  · norm_num [constrain, DISTANCE_WATER_EMPTY, DISTANCE_WATER_FULL]

/-- Claim C6: the water machine is the strict cycle CHECKING → REFILLING →
COOLDOWN → CHECKING.  Part 1: from CHECKING with a valid low reading the
machine enters REFILLING recording the entry time, and once
`REFILL_DURATION` has elapsed the next invocation turns the relay off and
enters COOLDOWN.  Part 2: in COOLDOWN no invocation can enter REFILLING and
the relay is untouched, whatever the reading; CHECKING is re-entered exactly
when `COOLDOWN_PERIOD` has elapsed.  Part 3: REFILLING moves to COOLDOWN
exactly when `REFILL_DURATION` has elapsed.  Part 4: every transition either
stays put or follows the cycle — no skipping. -/
theorem C6_water_strict_cycle :
    (∀ (s : WaterSM) (t0 t1 : Nat) (d0 d1 : ℚ),
        s.state = .CHECK_WATER → 0 < d0 → d0 ≤ 400 →
        constrain (DISTANCE_WATER_EMPTY - d0) 0
          (DISTANCE_WATER_EMPTY - DISTANCE_WATER_FULL) ≤ WATER_CRITICAL_HEIGHT →
        REFILL_DURATION ≤ t1 - t0 →
        (checkWaterLevel s t0 d0).state = .REFILL_RUNNING ∧
        (checkWaterLevel s t0 d0).stateStartTime = t0 ∧
        (checkWaterLevel (checkWaterLevel s t0 d0) t1 d1).state = .COOLDOWN ∧
        (checkWaterLevel (checkWaterLevel s t0 d0) t1 d1).pumpRelay = false ∧
        (checkWaterLevel (checkWaterLevel s t0 d0) t1 d1).stateStartTime = t1) ∧
    (∀ (s : WaterSM) (t : Nat) (d : ℚ), s.state = .COOLDOWN →
        (checkWaterLevel s t d).state ≠ .REFILL_RUNNING ∧
        (checkWaterLevel s t d).pumpRelay = s.pumpRelay ∧
        ((checkWaterLevel s t d).state = .CHECK_WATER ↔
          COOLDOWN_PERIOD ≤ t - s.stateStartTime)) ∧
    (∀ (s : WaterSM) (t : Nat) (d : ℚ), s.state = .REFILL_RUNNING →
        ((checkWaterLevel s t d).state = .COOLDOWN ↔
          REFILL_DURATION ≤ t - s.stateStartTime)) ∧
    (∀ (s : WaterSM) (t : Nat) (d : ℚ),
        (checkWaterLevel s t d).state = s.state ∨
        (s.state = .CHECK_WATER ∧ (checkWaterLevel s t d).state = .REFILL_RUNNING) ∨
        (s.state = .REFILL_RUNNING ∧ (checkWaterLevel s t d).state = .COOLDOWN) ∨
        (s.state = .COOLDOWN ∧ (checkWaterLevel s t d).state = .CHECK_WATER)) := by
  refine ⟨?_, ?_, ?_, ?_⟩
  · intro s t0 t1 d0 d1 hs hd0 hd0' hlow ht
    have hnr : ¬(d0 ≤ 0 ∨ d0 > 400) := by
      push_neg
      exact ⟨by linarith, by linarith⟩
    have h1 : checkWaterLevel s t0 d0 =
        { s with state := .REFILL_RUNNING, stateStartTime := t0,
                 lastDisplayUpdate := t0 } := by
      simp only [checkWaterLevel, hs]
      rw [if_neg hnr, if_pos hlow]
    rw [h1]
    refine ⟨rfl, rfl, ?_, ?_, ?_⟩ <;>
      · simp only [checkWaterLevel]
        split <;> simp_all
  · intro s t d hs
    obtain ⟨st, sst, sld, sp⟩ := s
    dsimp only at hs ⊢
    subst hs
    simp only [checkWaterLevel]
    refine ⟨?_, ?_, ?_⟩
    · split <;> split <;> simp
    · split <;> split <;> simp
    · constructor
      · intro h
        by_contra hc
        rw [if_neg hc] at h
        revert h
        split <;> simp
      · intro h
        rw [if_pos h]
  · intro s t d hs
    obtain ⟨st, sst, sld, sp⟩ := s
    dsimp only at hs ⊢
    subst hs
    simp only [checkWaterLevel]
    constructor
    · intro h
      by_contra hc
      rw [if_neg hc] at h
      revert h
      split <;> simp
    · intro h
      rw [if_pos h]
  · intro s t d
    obtain ⟨st, sst, sld, sp⟩ := s
    cases st
    · by_cases h1 : d ≤ 0 ∨ d > 400
      · left
        simp only [checkWaterLevel]
        rw [if_pos h1]
      · by_cases h2 : constrain (DISTANCE_WATER_EMPTY - d) 0
          (DISTANCE_WATER_EMPTY - DISTANCE_WATER_FULL) ≤ WATER_CRITICAL_HEIGHT
        · right; left
          refine ⟨rfl, ?_⟩
          simp only [checkWaterLevel]
          rw [if_neg h1, if_pos h2]
        · left
          simp only [checkWaterLevel]
          rw [if_neg h1, if_neg h2]
    · by_cases h1 : REFILL_DURATION ≤ t - sst
      · right; right; left
        refine ⟨rfl, ?_⟩
        simp only [checkWaterLevel]
        rw [if_pos h1]
      · left
        simp only [checkWaterLevel]
        rw [if_neg h1]
        split <;> rfl
    · by_cases h1 : COOLDOWN_PERIOD ≤ t - sst
      · right; right; right
        refine ⟨rfl, ?_⟩
        simp only [checkWaterLevel]
        rw [if_pos h1]
      · left
        simp only [checkWaterLevel]
        rw [if_neg h1]
        split <;> rfl

/-- Witness for C6: the cycle run at concrete inputs — a low reading
(17.5 cm) at t = 5 enters REFILLING, at t = 10005 the relay is off and the
state is COOLDOWN. -/
theorem C6_witness :
    (checkWaterLevel ⟨.CHECK_WATER, 0, 0, true⟩ 5 (35 / 2)).state = .REFILL_RUNNING ∧
    (checkWaterLevel ⟨.CHECK_WATER, 0, 0, true⟩ 5 (35 / 2)).stateStartTime = 5 ∧
    (checkWaterLevel (checkWaterLevel ⟨.CHECK_WATER, 0, 0, true⟩ 5 (35 / 2)) 10005 1).state = .COOLDOWN ∧
    (checkWaterLevel (checkWaterLevel ⟨.CHECK_WATER, 0, 0, true⟩ 5 (35 / 2)) 10005 1).pumpRelay = false ∧
    (checkWaterLevel (checkWaterLevel ⟨.CHECK_WATER, 0, 0, true⟩ 5 (35 / 2)) 10005 1).stateStartTime = 10005 :=
  C6_water_strict_cycle.1 ⟨.CHECK_WATER, 0, 0, true⟩ 5 10005 (35 / 2) 1 rfl
    (by norm_num) (by norm_num)
    (by norm_num [constrain, DISTANCE_WATER_EMPTY, DISTANCE_WATER_FULL,
      WATER_CRITICAL_HEIGHT])
    (by norm_num [REFILL_DURATION])

/-- Claim C8 counterexample: with `waitTime = 2000` and a nonzero
`startDisplayTime` whose dwell is already satisfied (elapsed 5000 ms ≥
`LCD_TIMEOUT` = 3000), `nonBlockingWait` returns immediately — the wait is
0, strictly shorter than the requested `waitTime`, refuting "the
minimum-dwell extension lengthens but never shortens the requested
waitTime". -/
theorem C8_wait_shortened_cex :
    nonBlockingWaitDuration 2000 1 5001 = 0 ∧
    nonBlockingWaitDuration 2000 1 5001 < 2000 := by decide

/-- Claim C8 as amended: with `startDisplayTime = 0` the wait is exactly
`waitTime`; with a nonzero `startDisplayTime` and dwell not yet satisfied
the wait is `max waitTime (LCD_TIMEOUT - elapsed)`, which never shortens
`waitTime`; but once at least `LCD_TIMEOUT` has elapsed since
`startDisplayTime` the function returns immediately (wait 0), which can
shorten the requested `waitTime` (main.cpp:1412-1426). -/
theorem C8_wait_duration_spec :
    ∀ waitTime startDisplayTime now : Nat,
      (startDisplayTime = 0 →
        nonBlockingWaitDuration waitTime startDisplayTime now = waitTime) ∧
      (0 < startDisplayTime → now - startDisplayTime < LCD_TIMEOUT →
        nonBlockingWaitDuration waitTime startDisplayTime now =
          max waitTime (LCD_TIMEOUT - (now - startDisplayTime)) ∧
        waitTime ≤ nonBlockingWaitDuration waitTime startDisplayTime now) ∧
      (0 < startDisplayTime → LCD_TIMEOUT ≤ now - startDisplayTime →
        nonBlockingWaitDuration waitTime startDisplayTime now = 0) := by
  intro waitTime startDisplayTime now
  refine ⟨?_, ?_, ?_⟩
  · intro h
    simp [nonBlockingWaitDuration, h]
  · intro h hd
    have hcond : 0 < LCD_TIMEOUT ∧ 0 < startDisplayTime := ⟨by decide, h⟩
    constructor
    · simp only [nonBlockingWaitDuration, if_pos hcond]
      rw [if_neg (by omega)]
    · simp only [nonBlockingWaitDuration, if_pos hcond]
      rw [if_neg (by omega)]
      exact le_max_left _ _
  · intro h hd
    have hcond : 0 < LCD_TIMEOUT ∧ 0 < startDisplayTime := ⟨by decide, h⟩
    simp only [nonBlockingWaitDuration, if_pos hcond]
    rw [if_pos hd]

/-- Witness for C8's amended theorem at concrete inputs. -/
theorem C8_witness :
    nonBlockingWaitDuration 500 0 9999 = 500 ∧
    nonBlockingWaitDuration 500 100 1100 = max 500 (LCD_TIMEOUT - 1000) ∧
    nonBlockingWaitDuration 500 100 8100 = 0 :=
  ⟨(C8_wait_duration_spec 500 0 9999).1 rfl,
   ((C8_wait_duration_spec 500 100 1100).2.1 (by norm_num) (by decide)).1,
   (C8_wait_duration_spec 500 100 8100).2.2 (by norm_num) (by decide)⟩

/-- Claim C3 counterexample: a sample sequence with zero valid reads makes
`getStableWeight` return the plain numeric 0 — exactly the value it returns
for a sequence of genuine 0 g readings (which the `weights[i] != 0` test
also classifies as zero valid reads) — and `getDistance` likewise returns 0;
failure is NOT signalled distinctly from a legitimate zero reading. -/
theorem C3_zero_failure_indistinct_cex :
    getStableWeight 5 (fun _ => none) = 0 ∧
    getStableWeight 5 (fun _ => some 0) = 0 ∧
    getDistance (fun _ => none) = 0 := by decide

/-- Claim C3 as amended: for every sample sequence with zero valid reads
(all recorded scale readings 0, or all pings echoless), the filters return
the in-band sentinel value 0 — numerically identical to a legitimate
zero-mass / zero-distance result — rather than a distinct failure signal
(scale_helpers.h:62-66, water_helpers.h:114-117). -/
theorem C3_zero_valid_returns_zero :
    ∀ (n : Nat) (reads : Nat → Option ℚ) (pings : Nat → Option Nat),
      (∀ i, (reads i).getD 0 = 0) → (∀ i, pings i = none) →
      getStableWeight n reads = 0 ∧ getDistance pings = 0 := by
  intro n reads pings hr hp
  constructor
  · have hz : (recordedWeights n reads).filter (fun w => decide (w ≠ 0)) = [] := by
      rw [List.filter_eq_nil_iff]
      intro a ha
      simp only [recordedWeights, List.mem_map] at ha
      obtain ⟨i, _, hi⟩ := ha
      simp [← hi, hr i]
    simp only [getStableWeight]
    rw [hz]
    simp
  · have hz : ((List.range PING_SAMPLES).map pings).filterMap id = [] := by
      rw [List.filterMap_eq_nil_iff]
      intro a ha
      simp only [List.mem_map] at ha
      obtain ⟨i, _, hi⟩ := ha
      simp [← hi, hp i]
    simp only [getDistance]
    rw [hz]
    simp

/-- Witness for C3's amended theorem at concrete all-failed inputs. -/
theorem C3_witness :
    getStableWeight 7 (fun _ => none) = 0 ∧ getDistance (fun _ => none) = 0 :=
  C3_zero_valid_returns_zero 7 (fun _ => none) (fun _ => none)
    (fun _ => rfl) (fun _ => rfl)

/-- Claim C10: in `getStableWeight` a reading recorded as 0 — whether a
failed read (recorded as 0) or a genuine 0 g measurement — is excluded from
the average and the valid count, so two read sequences with the same
recorded values are indistinguishable; in particular a scale stably
reporting exactly 0 g yields `validReadings = 0` and the all-readings-failed
branch, the same result as total sensor failure. -/
theorem C10_zero_reading_excluded :
    (∀ (n : Nat) (reads rdAlt : Nat → Option ℚ),
        (∀ i, (rdAlt i).getD 0 = (reads i).getD 0) →
        getStableWeight n rdAlt = getStableWeight n reads ∧
        stableValidCount n rdAlt = stableValidCount n reads) ∧
    stableValidCount 5 (fun _ => some 0) = 0 ∧
    getStableWeight 5 (fun _ => some 0) = getStableWeight 5 (fun _ => none) := by
  refine ⟨?_, by decide, by decide⟩
  intro n reads rdAlt h
  have hrec : recordedWeights n rdAlt = recordedWeights n reads := by
    simp only [recordedWeights]
    exact List.map_congr_left (fun i _ => h i)
  exact ⟨by simp [getStableWeight, hrec], by simp [stableValidCount, hrec]⟩

/-- Witness for C10: the all-zero-reading sequence and the all-failed
sequence are indistinguishable to `getStableWeight`. -/
theorem C10_witness :
    getStableWeight 5 (fun _ => some 0) = getStableWeight 5 (fun _ => none) ∧
    stableValidCount 5 (fun _ => some 0) = stableValidCount 5 (fun _ => none) :=
  C10_zero_reading_excluded.1 5 (fun _ => none) (fun _ => some 0) (fun _ => rfl)

/-! ## Helper lemmas about the feeding loop -/

lemma updateDisplayTick_fields (now : Nat) (s : FeedState) :
    (updateDisplayTick now s).trace = s.trace ∧
    (updateDisplayTick now s).retryCount = s.retryCount ∧
    (updateDisplayTick now s).targetReached = s.targetReached := by
  simp only [updateDisplayTick]
  split <;> exact ⟨rfl, rfl, rfl⟩

lemma countRetry_append (t u : List FeedEvent) :
    countRetry (t ++ u) = countRetry t + countRetry u := by
  simp [countRetry, List.countP_append]

lemma countDead_append (t u : List FeedEvent) :
    countDead (t ++ u) = countDead t + countDead u := by
  simp [countDead, List.countP_append]

lemma countRetry_singleton (e : FeedEvent) :
    countRetry [e] = if isRetryEvt e then 1 else 0 := by
  simp [countRetry, List.countP_cons]

lemma countDead_singleton (e : FeedEvent) :
    countDead [e] = if isDeadBranchEvt e then 1 else 0 := by
  simp [countDead, List.countP_cons]

lemma lastServoAngle_append_close (t : List FeedEvent) (a : Nat) :
    lastServoAngle (t ++ [.servoWrite a]) = some a := by
  simp [lastServoAngle, servoWrites, List.filterMap_append]

/-- The direct-reach / emergency-stop block is a no-op whenever the pre-close
flag is set, or the dispensed weight is below both of its thresholds. -/
lemma directAndExcessBlock_skip (targetAmount : ℚ) (s : FeedState)
    (h : s.preCloseExecuted = true ∨
      (s.dispensedWeight < targetAmount ∧
        s.dispensedWeight < targetAmount * (5 / 4))) :
    directAndExcessBlock targetAmount s = s := by
  rcases h with h | ⟨ha, hb⟩
  · simp only [directAndExcessBlock, h]
    simp
  · simp only [directAndExcessBlock]
    split
    · rw [if_neg (not_le.mpr ha), if_neg (not_le.mpr hb)]
    · rfl

/-- After the settle block either the pre-close flag is still set, or the
retry branch ran and the (clamped, settled) dispensed weight is below
`targetAmount * FEED_COMPLETE_FACTOR`. -/
lemma settleBlock_cases (initialWeight targetAmount : ℚ) (env : FeedEnv)
    (s : FeedState) :
    (settleBlock initialWeight targetAmount env s).preCloseExecuted = true ∨
    ((settleBlock initialWeight targetAmount env s).preCloseExecuted = false ∧
      (settleBlock initialWeight targetAmount env s).dispensedWeight <
        targetAmount * FEED_COMPLETE_FACTOR) := by
  simp only [settleBlock, emit]
  split
  · next hcond => exact Or.inr ⟨rfl, hcond.1⟩
  · split
    · exact Or.inl rfl
    · split
      · exact Or.inl rfl
      · exact Or.inl rfl

lemma settleBlock_deadcount (initialWeight targetAmount : ℚ) (env : FeedEnv)
    (s : FeedState) :
    countDead (settleBlock initialWeight targetAmount env s).trace =
      countDead s.trace := by
  simp only [settleBlock, emit]
  split
  · simp [countDead, List.countP_append, List.countP_cons, isDeadBranchEvt]
  · split
    · simp [countDead, List.countP_append, List.countP_cons, isDeadBranchEvt]
    · split
      · simp [countDead, List.countP_append, List.countP_cons, isDeadBranchEvt]
      · simp [countDead, List.countP_append, List.countP_cons, isDeadBranchEvt]

lemma settleBlock_inv (initialWeight targetAmount : ℚ) (env : FeedEnv)
    (s : FeedState)
    (h1 : s.retryCount ≤ FEED_RETRY_TIMEOUT)
    (h2 : countRetry s.trace ≤ s.retryCount)
    (h3 : s.targetReached = false)
    (hset : clampNonneg
        (measureSettledWeight (env.settleReads s.settleCount) 5 - initialWeight)
      < targetAmount * FEED_COMPLETE_FACTOR) :
    (settleBlock initialWeight targetAmount env s).retryCount ≤ FEED_RETRY_TIMEOUT ∧
    countRetry (settleBlock initialWeight targetAmount env s).trace ≤
      (settleBlock initialWeight targetAmount env s).retryCount ∧
    ((settleBlock initialWeight targetAmount env s).targetReached = true →
      FeedEvent.retriesExhausted ∈ (settleBlock initialWeight targetAmount env s).trace) := by
  simp only [settleBlock, emit]
  split
  · next hcond =>
    refine ⟨?_, ?_, ?_⟩
    · have := hcond.2
      simp only [FEED_RETRY_TIMEOUT] at this ⊢
      omega
    · show countRetry (((s.trace ++ [.servoWrite SERVO_CLOSE_ANGLE]) ++
          [.retryDispense]) ++ [.servoWrite SERVO_OPEN_ANGLE]) ≤ s.retryCount + 1
      simp only [countRetry_append, countRetry_singleton, isRetryEvt]
      simp
      omega
    · intro hc
      rw [h3] at hc
      cases hc
  · split
    · next hge =>
      exact absurd hge (not_le.mpr hset)
    · split
      · refine ⟨h1, ?_, ?_⟩
        · show countRetry ((s.trace ++ [.servoWrite SERVO_CLOSE_ANGLE]) ++
              [.retriesExhausted]) ≤ s.retryCount
          simp only [countRetry_append, countRetry_singleton, isRetryEvt]
          simp
          omega
        · intro _
          simp [List.mem_append]
      · refine ⟨h1, ?_, ?_⟩
        · show countRetry (s.trace ++ [.servoWrite SERVO_CLOSE_ANGLE]) ≤ s.retryCount
          simp only [countRetry_append, countRetry_singleton, isRetryEvt]
          simp
          omega
        · intro hc
          rw [h3] at hc
          cases hc

lemma pollBlock_deadcount (initialWeight targetAmount : ℚ) (env : FeedEnv)
    (s : FeedState) (ht : 0 < targetAmount) :
    countDead (pollBlock initialWeight targetAmount env s).trace =
      countDead s.trace := by
  have h095 : targetAmount * FEED_COMPLETE_FACTOR < targetAmount := by
    simp only [FEED_COMPLETE_FACTOR]
    linarith
  have h54 : targetAmount * FEED_COMPLETE_FACTOR < targetAmount * (5 / 4) := by
    simp only [FEED_COMPLETE_FACTOR]
    linarith
  have h09 : targetAmount * FEED_CALIBRATION_FACTOR < targetAmount := by
    simp only [FEED_CALIBRATION_FACTOR]
    linarith
  have h0954 : targetAmount * FEED_CALIBRATION_FACTOR < targetAmount * (5 / 4) := by
    simp only [FEED_CALIBRATION_FACTOR]
    linarith
  simp only [pollBlock]
  split
  · rcases settleBlock_cases initialWeight targetAmount env _ with hc | ⟨hc, hd⟩
    · rw [directAndExcessBlock_skip targetAmount _ (Or.inl hc)]
      exact settleBlock_deadcount _ _ _ _
    · rw [directAndExcessBlock_skip targetAmount _
        (Or.inr ⟨lt_trans hd h095, lt_trans hd h54⟩)]
      exact settleBlock_deadcount _ _ _ _
  · next hcond =>
    rw [directAndExcessBlock_skip targetAmount _ ?_]
    push_neg at hcond
    rcases hp : s.preCloseExecuted with _ | _
    · right
      have hlt := hcond hp
      exact ⟨lt_trans hlt h09, lt_trans hlt h0954⟩
    · exact Or.inl rfl

lemma pollBlock_inv (initialWeight targetAmount : ℚ) (env : FeedEnv)
    (s : FeedState) (ht : 0 < targetAmount)
    (hset : ∀ k, clampNonneg
        (measureSettledWeight (env.settleReads k) 5 - initialWeight)
      < targetAmount * FEED_COMPLETE_FACTOR)
    (h1 : s.retryCount ≤ FEED_RETRY_TIMEOUT)
    (h2 : countRetry s.trace ≤ s.retryCount)
    (h3 : s.targetReached = false) :
    (pollBlock initialWeight targetAmount env s).retryCount ≤ FEED_RETRY_TIMEOUT ∧
    countRetry (pollBlock initialWeight targetAmount env s).trace ≤
      (pollBlock initialWeight targetAmount env s).retryCount ∧
    ((pollBlock initialWeight targetAmount env s).targetReached = true →
      FeedEvent.retriesExhausted ∈ (pollBlock initialWeight targetAmount env s).trace) := by
  have h095 : targetAmount * FEED_COMPLETE_FACTOR < targetAmount := by
    simp only [FEED_COMPLETE_FACTOR]
    linarith
  have h54 : targetAmount * FEED_COMPLETE_FACTOR < targetAmount * (5 / 4) := by
    simp only [FEED_COMPLETE_FACTOR]
    linarith
  have h09 : targetAmount * FEED_CALIBRATION_FACTOR < targetAmount := by
    simp only [FEED_CALIBRATION_FACTOR]
    linarith
  have h0954 : targetAmount * FEED_CALIBRATION_FACTOR < targetAmount * (5 / 4) := by
    simp only [FEED_CALIBRATION_FACTOR]
    linarith
  simp only [pollBlock]
  split
  · rcases settleBlock_cases initialWeight targetAmount env _ with hc | ⟨hc, hd⟩
    · rw [directAndExcessBlock_skip targetAmount _ (Or.inl hc)]
      exact settleBlock_inv initialWeight targetAmount env _ h1 h2 h3 (hset _)
    · rw [directAndExcessBlock_skip targetAmount _
        (Or.inr ⟨lt_trans hd h095, lt_trans hd h54⟩)]
      exact settleBlock_inv initialWeight targetAmount env _ h1 h2 h3 (hset _)
  · next hcond =>
    rw [directAndExcessBlock_skip targetAmount _ ?_]
    · refine ⟨h1, h2, ?_⟩
      intro hc
      rw [h3] at hc
      cases hc
    · push_neg at hcond
      rcases hp : s.preCloseExecuted with _ | _
      · right
        have hlt := hcond hp
        exact ⟨lt_trans hlt h09, lt_trans hlt h0954⟩
      · exact Or.inl rfl

/-! Case equations for one loop iteration and for the loop itself. -/

lemma feedIter_no_poll (initialWeight targetAmount : ℚ) (env : FeedEnv)
    (now : Nat) (s : FeedState)
    (h : ¬ WEIGHT_READ_INTERVAL ≤ now - s.lastWeightRead) :
    feedIter initialWeight targetAmount env now s = (updateDisplayTick now s, false) := by
  simp only [feedIter]
  rw [if_neg h]

lemma feedIter_abort (initialWeight targetAmount : ℚ) (env : FeedEnv)
    (now : Nat) (s : FeedState)
    (h : WEIGHT_READ_INTERVAL ≤ now - s.lastWeightRead)
    (hsc : env.scaleOk s.pollCount = false) :
    feedIter initialWeight targetAmount env now s =
      (emit (emit { s with lastWeightRead := now } .scaleAbort)
        (.servoWrite SERVO_CLOSE_ANGLE), true) := by
  simp only [feedIter]
  rw [if_pos h, if_pos hsc]

lemma feedIter_poll (initialWeight targetAmount : ℚ) (env : FeedEnv)
    (now : Nat) (s : FeedState)
    (h : WEIGHT_READ_INTERVAL ≤ now - s.lastWeightRead)
    (hsc : env.scaleOk s.pollCount = true) :
    feedIter initialWeight targetAmount env now s =
      (updateDisplayTick now
        (pollBlock initialWeight targetAmount env { s with lastWeightRead := now }),
       false) := by
  simp only [feedIter]
  rw [if_pos h, if_neg (by simp [hsc])]

lemma dispenseLoop_exit (initialWeight targetAmount : ℚ) (env : FeedEnv)
    (times : Nat → Nat) (startTime fuel i : Nat) (s : FeedState)
    (hcond : ¬(s.targetReached = false ∧ times i - startTime < FEED_TIMEOUT)) :
    dispenseLoop initialWeight targetAmount env times startTime (fuel + 1) i s =
      some ⟨s.dispensedWeight, s.trace ++ [.servoWrite SERVO_CLOSE_ANGLE],
            s.retryCount, false, !s.targetReached⟩ := by
  simp only [dispenseLoop]
  rw [if_neg hcond]
  rfl

lemma dispenseLoop_abort (initialWeight targetAmount : ℚ) (env : FeedEnv)
    (times : Nat → Nat) (startTime fuel i : Nat) (s : FeedState)
    (hcond : s.targetReached = false ∧ times i - startTime < FEED_TIMEOUT)
    (hb : WEIGHT_READ_INTERVAL ≤ times i - s.lastWeightRead)
    (hsc : env.scaleOk s.pollCount = false) :
    dispenseLoop initialWeight targetAmount env times startTime (fuel + 1) i s =
      some ⟨s.dispensedWeight,
            (s.trace ++ [.scaleAbort]) ++ [.servoWrite SERVO_CLOSE_ANGLE],
            s.retryCount, true, false⟩ := by
  simp only [dispenseLoop]
  rw [if_pos hcond, feedIter_abort initialWeight targetAmount env (times i) s hb hsc]
  rfl

lemma dispenseLoop_step_poll (initialWeight targetAmount : ℚ) (env : FeedEnv)
    (times : Nat → Nat) (startTime fuel i : Nat) (s : FeedState)
    (hcond : s.targetReached = false ∧ times i - startTime < FEED_TIMEOUT)
    (hb : WEIGHT_READ_INTERVAL ≤ times i - s.lastWeightRead)
    (hsc : env.scaleOk s.pollCount = true) :
    dispenseLoop initialWeight targetAmount env times startTime (fuel + 1) i s =
      dispenseLoop initialWeight targetAmount env times startTime fuel (i + 1)
        (updateDisplayTick (times i)
          (pollBlock initialWeight targetAmount env { s with lastWeightRead := times i })) := by
  simp only [dispenseLoop]
  rw [if_pos hcond, feedIter_poll initialWeight targetAmount env (times i) s hb hsc]
  rfl

lemma dispenseLoop_step_no_poll (initialWeight targetAmount : ℚ) (env : FeedEnv)
    (times : Nat → Nat) (startTime fuel i : Nat) (s : FeedState)
    (hcond : s.targetReached = false ∧ times i - startTime < FEED_TIMEOUT)
    (hb : ¬ WEIGHT_READ_INTERVAL ≤ times i - s.lastWeightRead) :
    dispenseLoop initialWeight targetAmount env times startTime (fuel + 1) i s =
      dispenseLoop initialWeight targetAmount env times startTime fuel (i + 1)
        (updateDisplayTick (times i) s) := by
  simp only [dispenseLoop]
  rw [if_pos hcond, feedIter_no_poll initialWeight targetAmount env (times i) s hb]
  rfl

/-- Every terminating run of the dispensing loop preserves the count of
direct-reach / emergency-stop events, because for a positive target the
pre-close rule (threshold 0.9 × target < target) always fires first and the
`if (!preCloseExecuted)` block then sees either a set flag or a dispensed
weight below `FEED_COMPLETE_FACTOR × target`. -/
lemma dispenseLoop_deadcount (initialWeight targetAmount : ℚ) (env : FeedEnv)
    (times : Nat → Nat) (startTime : Nat) (ht : 0 < targetAmount) :
    ∀ (fuel i : Nat) (s : FeedState) (r : FeedResult),
      dispenseLoop initialWeight targetAmount env times startTime fuel i s = some r →
      countDead r.trace = countDead s.trace := by
  intro fuel
  induction fuel with
  | zero =>
    intro i s r h
    simp [dispenseLoop] at h
  | succ fuel ih =>
    intro i s r h
    by_cases hcond : s.targetReached = false ∧ times i - startTime < FEED_TIMEOUT
    · by_cases hb : WEIGHT_READ_INTERVAL ≤ times i - s.lastWeightRead
      · rcases hscv : env.scaleOk s.pollCount with _ | _
        · rw [dispenseLoop_abort initialWeight targetAmount env times startTime fuel i s
            hcond hb hscv] at h
          cases h
          simp [countDead, List.countP_append, List.countP_cons, isDeadBranchEvt]
        · rw [dispenseLoop_step_poll initialWeight targetAmount env times startTime fuel i s
            hcond hb hscv] at h
          rw [ih _ _ _ h, (updateDisplayTick_fields _ _).1,
            pollBlock_deadcount initialWeight targetAmount env _ ht]
      · rw [dispenseLoop_step_no_poll initialWeight targetAmount env times startTime fuel i s
          hcond hb] at h
        rw [ih _ _ _ h, (updateDisplayTick_fields _ _).1]
    · rw [dispenseLoop_exit initialWeight targetAmount env times startTime fuel i s hcond] at h
      cases h
      simp [countDead, List.countP_append, List.countP_cons, isDeadBranchEvt]

/-- Every run of the dispensing loop that is given enough fuel terminates
with `some` result once `FEED_TIMEOUT` is exceeded (each iteration advances
`millis()` by at least the 10 ms loop delay), keeps the retry counter at
most `FEED_RETRY_TIMEOUT`, and — when settled measurements never reach
`FEED_COMPLETE_FACTOR × target` and the scale stays responsive — exits with
the retries-exhausted message or via the timeout guard. -/
lemma dispenseLoop_progress (initialWeight targetAmount : ℚ) (env : FeedEnv)
    (times : Nat → Nat) (startTime : Nat) (ht : 0 < targetAmount)
    (hmono : ∀ i, times i + 10 ≤ times (i + 1))
    (hscale : ∀ n, env.scaleOk n = true)
    (hset : ∀ k, clampNonneg
        (measureSettledWeight (env.settleReads k) 5 - initialWeight)
      < targetAmount * FEED_COMPLETE_FACTOR) :
    ∀ (fuel i : Nat) (s : FeedState),
      startTime + FEED_TIMEOUT ≤ times i + 10 * fuel →
      s.retryCount ≤ FEED_RETRY_TIMEOUT →
      countRetry s.trace ≤ s.retryCount →
      (s.targetReached = true → FeedEvent.retriesExhausted ∈ s.trace) →
      ∃ r, dispenseLoop initialWeight targetAmount env times startTime (fuel + 1) i s = some r ∧
        r.retryCount ≤ FEED_RETRY_TIMEOUT ∧
        countRetry r.trace ≤ FEED_RETRY_TIMEOUT ∧
        (FeedEvent.retriesExhausted ∈ r.trace ∨ r.timedOut = true) := by
  intro fuel
  induction fuel with
  | zero =>
    intro i s htime h1 h2 h3
    have hcond : ¬(s.targetReached = false ∧ times i - startTime < FEED_TIMEOUT) := by
      rintro ⟨-, hlt⟩
      omega
    refine ⟨_, dispenseLoop_exit initialWeight targetAmount env times startTime 0 i s hcond,
      h1, ?_, ?_⟩
    · simp only [countRetry_append, countRetry_singleton, isRetryEvt]
      simp
      omega
    · rcases hb : s.targetReached with _ | _
      · exact Or.inr (by simp [hb])
      · exact Or.inl (List.mem_append_left _ (h3 hb))
  | succ fuel ih =>
    intro i s htime h1 h2 h3
    by_cases hcond : s.targetReached = false ∧ times i - startTime < FEED_TIMEOUT
    · have hnext : startTime + FEED_TIMEOUT ≤ times (i + 1) + 10 * fuel := by
        have := hmono i
        omega
      by_cases hb : WEIGHT_READ_INTERVAL ≤ times i - s.lastWeightRead
      · have hp := pollBlock_inv initialWeight targetAmount env
          { s with lastWeightRead := times i } ht hset h1 h2 hcond.1
        have hf := updateDisplayTick_fields (times i)
          (pollBlock initialWeight targetAmount env { s with lastWeightRead := times i })
        obtain ⟨r, hr, p1, p2, p3⟩ := ih (i + 1)
          (updateDisplayTick (times i)
            (pollBlock initialWeight targetAmount env { s with lastWeightRead := times i }))
          hnext (by rw [hf.2.1]; exact hp.1) (by rw [hf.1, hf.2.1]; exact hp.2.1)
          (by rw [hf.2.2, hf.1]; exact hp.2.2)
        exact ⟨r, by
          rw [dispenseLoop_step_poll initialWeight targetAmount env times startTime
            (fuel + 1) i s hcond hb (hscale s.pollCount)]
          exact hr, p1, p2, p3⟩
      · have hf := updateDisplayTick_fields (times i) s
        obtain ⟨r, hr, p1, p2, p3⟩ := ih (i + 1) (updateDisplayTick (times i) s)
          hnext (by rw [hf.2.1]; exact h1) (by rw [hf.1, hf.2.1]; exact h2)
          (by rw [hf.2.2, hf.1]; exact h3)
        exact ⟨r, by
          rw [dispenseLoop_step_no_poll initialWeight targetAmount env times startTime
            (fuel + 1) i s hcond hb]
          exact hr, p1, p2, p3⟩
    · refine ⟨_, dispenseLoop_exit initialWeight targetAmount env times startTime
        (fuel + 1) i s hcond, h1, ?_, ?_⟩
      · simp only [countRetry_append, countRetry_singleton, isRetryEvt]
        simp
        omega
      · rcases hb : s.targetReached with _ | _
        · exact Or.inr (by simp [hb])
        · exact Or.inl (List.mem_append_left _ (h3 hb))

/-- Every terminating run ends with `SERVO_CLOSE_ANGLE` as the last servo
command: the scale-failure abort writes it just before returning, and both
loop exits fall through to the final `hatchServo.write(SERVO_CLOSE_ANGLE)`. -/
lemma dispenseLoop_last_servo (initialWeight targetAmount : ℚ) (env : FeedEnv)
    (times : Nat → Nat) (startTime : Nat) :
    ∀ (fuel i : Nat) (s : FeedState) (r : FeedResult),
      dispenseLoop initialWeight targetAmount env times startTime fuel i s = some r →
      lastServoAngle r.trace = some SERVO_CLOSE_ANGLE := by
  intro fuel
  induction fuel with
  | zero =>
    intro i s r h
    simp [dispenseLoop] at h
  | succ fuel ih =>
    intro i s r h
    by_cases hcond : s.targetReached = false ∧ times i - startTime < FEED_TIMEOUT
    · by_cases hb : WEIGHT_READ_INTERVAL ≤ times i - s.lastWeightRead
      · rcases hscv : env.scaleOk s.pollCount with _ | _
        · rw [dispenseLoop_abort initialWeight targetAmount env times startTime fuel i s
            hcond hb hscv] at h
          cases h
          exact lastServoAngle_append_close _ _
        · rw [dispenseLoop_step_poll initialWeight targetAmount env times startTime fuel i s
            hcond hb hscv] at h
          exact ih _ _ _ h
      · rw [dispenseLoop_step_no_poll initialWeight targetAmount env times startTime fuel i s
          hcond hb] at h
        exact ih _ _ _ h
    · rw [dispenseLoop_exit initialWeight targetAmount env times startTime fuel i s hcond] at h
      cases h
      exact lastServoAngle_append_close _ _

/-- Evaluation of the jump run: weight polls of 300 g against a 65 g target
(a single poll jumps past 1.25 × 65 = 81.25 g); the controller answers with
the normal-completion path. -/
lemma feedRunJump_eval :
    dispenseFoodWithFeedback 0 65 envJump (fun i => 100 * i) 0 5 = some feedResJump := by
  norm_num [dispenseFoodWithFeedback, dispenseLoop, feedIter, pollBlock, settleBlock,
    directAndExcessBlock, updateDisplayTick, initFeedState, emit, measureSettledWeight,
    clampNonneg, envJump, feedResJump, WEIGHT_READ_INTERVAL, FEED_TIMEOUT,
    LCD_UPDATE_INTERVAL, FEED_CALIBRATION_FACTOR, FEED_COMPLETE_FACTOR,
    FEED_RETRY_TIMEOUT, SERVO_OPEN_ANGLE, SERVO_CLOSE_ANGLE]

/-- Evaluation of the 70 g run: weight polls of 70 g against a 65 g target
(dispensed weight reaches the target); completion happens through the
pre-close path. -/
lemma feedRunSeventy_eval :
    dispenseFoodWithFeedback 0 65 envSeventy (fun i => 100 * i) 0 8 = some feedResSeventy := by
  norm_num [dispenseFoodWithFeedback, dispenseLoop, feedIter, pollBlock, settleBlock,
    directAndExcessBlock, updateDisplayTick, initFeedState, emit, measureSettledWeight,
    clampNonneg, envSeventy, feedResSeventy, WEIGHT_READ_INTERVAL, FEED_TIMEOUT,
    LCD_UPDATE_INTERVAL, FEED_CALIBRATION_FACTOR, FEED_COMPLETE_FACTOR,
    FEED_RETRY_TIMEOUT, SERVO_OPEN_ANGLE, SERVO_CLOSE_ANGLE]

/-! ## Theorems about the feeding dispense controller -/

/-- Claim C1: on every return path of `dispenseFoodWithFeedback` (and hence
of `feeding`, whose only hatch commands go through it) — normal completion,
retry exhaustion, emergency excess, feed timeout, and the mid-dispense
scale-failure abort — the last command issued to the hatch servo is
`SERVO_CLOSE_ANGLE`, so the hatch is never left open after the controller
returns. -/
theorem C1_hatch_closed_on_every_return :
    ∀ (initialWeight targetAmount : ℚ) (env : FeedEnv) (times : Nat → Nat)
      (startTime fuel : Nat) (r : FeedResult),
      dispenseFoodWithFeedback initialWeight targetAmount env times startTime fuel = some r →
      lastServoAngle r.trace = some SERVO_CLOSE_ANGLE := by
  intro initialWeight targetAmount env times startTime fuel r h
  exact dispenseLoop_last_servo initialWeight targetAmount env times startTime fuel 0
    (initFeedState initialWeight) r h

/-- Witness for C1: the scale-dead abort run closes the hatch last. -/
theorem C1_witness :
    lastServoAngle feedResDeadScale.trace = some SERVO_CLOSE_ANGLE :=
  C1_hatch_closed_on_every_return 0 65 envDeadScale (fun i => 100 * i) 0 5
    feedResDeadScale rfl

/-- Claim C2 (code divergence): the emergency-stop branch
(feeding_helpers.h:363-373) can never fire for a positive target: it is
nested under `if (!preCloseExecuted)` and the pre-close rule (threshold
0.9 × target ≤ 1.25 × target) always pre-empts it, overwriting
`dispensedWeight` with a settled value routed to retry / complete / shortage
instead.  Hence no run — in particular none whose readings jump directly
past `target × 1.25` between two polls — ever reports the excess outcome. -/
theorem C2_excess_stop_unreachable :
    ∀ (initialWeight targetAmount : ℚ) (env : FeedEnv) (times : Nat → Nat)
      (startTime fuel : Nat) (r : FeedResult),
      0 < targetAmount →
      dispenseFoodWithFeedback initialWeight targetAmount env times startTime fuel = some r →
      FeedEvent.excessStop ∉ r.trace := by
  intro initialWeight targetAmount env times startTime fuel r ht h hmem
  have hd := dispenseLoop_deadcount initialWeight targetAmount env times startTime ht
    fuel 0 (initFeedState initialWeight) r h
  have h0 : countDead (initFeedState initialWeight).trace = 0 := rfl
  rw [h0] at hd
  have hz := List.countP_eq_zero.mp hd _ hmem
  simp [isDeadBranchEvt] at hz

/-- Witness for C2: the run whose readings jump straight to 300 g
(≥ 1.25 × 65 = 81.25 g) completes through the pre-close path with no excess
event. -/
theorem C2_witness :
    FeedEvent.excessStop ∉ feedResJump.trace ∧
    FEED_WEIGHT * (5 / 4) ≤ feedResJump.dispensedWeight ∧
    dispenseFoodWithFeedback 0 65 envJump (fun i => 100 * i) 0 5 = some feedResJump :=
  ⟨C2_excess_stop_unreachable 0 65 envJump (fun i => 100 * i) 0 5 feedResJump
      (by norm_num) feedRunJump_eval,
   by norm_num [FEED_WEIGHT, feedResJump], feedRunJump_eval⟩

/-- Claim C5 (code divergence): the direct-reach branch
(feeding_helpers.h:350-361) and its two-consecutive-confirmation completion
are dead for a positive target: `dispensedWeight ≥ target` implies the
pre-close threshold `0.9 × target` was reached, so the pre-close rule runs
first and sets `preCloseExecuted`; the confirmation counter can therefore
never declare completion in any run. -/
theorem C5_direct_reach_branch_never_runs :
    ∀ (initialWeight targetAmount : ℚ) (env : FeedEnv) (times : Nat → Nat)
      (startTime fuel : Nat) (r : FeedResult),
      0 < targetAmount →
      dispenseFoodWithFeedback initialWeight targetAmount env times startTime fuel = some r →
      FeedEvent.directReachClose ∉ r.trace ∧
      FeedEvent.directReachConfirmed ∉ r.trace := by
  intro initialWeight targetAmount env times startTime fuel r ht h
  have hd := dispenseLoop_deadcount initialWeight targetAmount env times startTime ht
    fuel 0 (initFeedState initialWeight) r h
  have h0 : countDead (initFeedState initialWeight).trace = 0 := rfl
  rw [h0] at hd
  constructor
  · intro hmem
    have hz := List.countP_eq_zero.mp hd _ hmem
    simp [isDeadBranchEvt] at hz
  · intro hmem
    have hz := List.countP_eq_zero.mp hd _ hmem
    simp [isDeadBranchEvt] at hz

/-- Witness for C5: the run whose readings reach 70 g (≥ target 65 g)
completes through the pre-close path; the direct-reach branch never runs. -/
theorem C5_witness :
    (FeedEvent.directReachClose ∉ feedResSeventy.trace ∧
      FeedEvent.directReachConfirmed ∉ feedResSeventy.trace) ∧
    FEED_WEIGHT ≤ feedResSeventy.dispensedWeight ∧
    dispenseFoodWithFeedback 0 65 envSeventy (fun i => 100 * i) 0 8 = some feedResSeventy :=
  ⟨C5_direct_reach_branch_never_runs 0 65 envSeventy (fun i => 100 * i) 0 8
      feedResSeventy (by norm_num) feedRunSeventy_eval,
   by norm_num [FEED_WEIGHT, feedResSeventy], feedRunSeventy_eval⟩

/-- Claim C4: if settled measurements stay below
`target × FEED_COMPLETE_FACTOR`, the retry counter (and the number of
retry-reopen cycles in the whole run) never exceeds
`FEED_RETRY_TIMEOUT = 2`, and the loop terminates within `FEED_TIMEOUT`
(each iteration advances `millis()` by at least the 10 ms loop delay, so
3001 iterations always suffice) — exiting with the retries-exhausted
shortage message or via the timeout guard, never looping forever. -/
theorem C4_retry_bounded_and_terminates :
    ∀ (initialWeight targetAmount : ℚ) (env : FeedEnv) (times : Nat → Nat)
      (startTime : Nat),
      0 < targetAmount →
      (∀ i, times i + 10 ≤ times (i + 1)) →
      startTime ≤ times 0 →
      (∀ n, env.scaleOk n = true) →
      (∀ k, clampNonneg
          (measureSettledWeight (env.settleReads k) 5 - initialWeight)
        < targetAmount * FEED_COMPLETE_FACTOR) →
      ∃ r, dispenseFoodWithFeedback initialWeight targetAmount env times startTime 3001 = some r ∧
        r.retryCount ≤ FEED_RETRY_TIMEOUT ∧
        countRetry r.trace ≤ FEED_RETRY_TIMEOUT ∧
        (FeedEvent.retriesExhausted ∈ r.trace ∨ r.timedOut = true) := by
  intro initialWeight targetAmount env times startTime ht hmono hstart hscale hset
  have h := dispenseLoop_progress initialWeight targetAmount env times startTime
    ht hmono hscale hset 3000 0 (initFeedState initialWeight)
    (by simp only [FEED_TIMEOUT]; omega)
    (by simp [initFeedState, FEED_RETRY_TIMEOUT])
    (by simp [countRetry, initFeedState, List.countP_cons, isRetryEvt])
    (by simp [initFeedState])
  exact h

/-- Witness for C4: a run whose scale always reads 0 g (nothing ever lands)
against the configured 65 g target. -/
theorem C4_witness :
    ∃ r, dispenseFoodWithFeedback 0 65 envNoFlow (fun i => 10 * i) 0 3001 = some r ∧
      r.retryCount ≤ FEED_RETRY_TIMEOUT ∧
      countRetry r.trace ≤ FEED_RETRY_TIMEOUT ∧
      (FeedEvent.retriesExhausted ∈ r.trace ∨ r.timedOut = true) :=
  C4_retry_bounded_and_terminates 0 65 envNoFlow (fun i => 10 * i) 0
    (by norm_num)
    (fun i => by show 10 * i + 10 ≤ 10 * (i + 1); omega)
    (Nat.le_refl 0)
    (fun n => rfl)
    (fun k => by
      have : measureSettledWeight (envNoFlow.settleReads k) 5 = 0 := by
        simp [measureSettledWeight, envNoFlow, List.range_succ]
      rw [this]
      norm_num [clampNonneg, FEED_COMPLETE_FACTOR])

end IotFeeder
